import Mathlib

/-!
Verification of the registration / heartbeat / table-creation core of the
Kudu master, as described by the repository's specification and exercised by
`src/kudu/integration-tests/registration-test.cc`.

The client-side polling loops (`CreateTableForTesting`, lines 90-113, and
`RegistrationTest::WaitForReplicaCount`, lines 176-199) are embedded directly
from that source file.  The master-side components (CatalogManager /
leader gate / tablet-server registry / security bootstrap) are not part of the
staged sources — only their test callers are — so they are modelled from the
specification, as marked on each definition.
-/

namespace KuduReg

/-- Error taxonomy of the spec (section 7). -/
inductive ErrReason
  | NotReady
  | NotLeader
  | ServiceUnavailable
  | AlreadyExists
  | NotFound
  | Timeout
  | InvalidRegistration
deriving DecidableEq, Repr

/-- Replica role as carried by tablet reports (leader / follower / unknown). -/
inductive Role
  | leader
  | follower
  | unknown
deriving DecidableEq, Repr

/-- Column type; the test schema uses a single UINT32 column. -/
inductive ColType
  | uint32
  | int32
  | stringT
deriving DecidableEq, Repr

/-- One column of a table schema: name, type, nullability. -/
structure ColumnSchema where
  cname : String
  ctype : ColType
  nullable : Bool
deriving DecidableEq, Repr

/-- A table schema: ordered columns plus the count of leading key columns. -/
structure Schema where
  cols : List ColumnSchema
  numKeyCols : Nat
deriving DecidableEq, Repr

/-- One replica of a tablet as recorded by the master: reporter UUID,
last-known term, last-known role. -/
structure ReplicaState where
  uuid : String
  term : Nat
  role : Role
deriving DecidableEq, Repr

/-- Modelled from the spec: a Tablet of the CatalogStore (section 3) —
identity, owning table, replica set built from heartbeat reports. -/
structure TabletInfo where
  tabletId : String
  tableId : String
  replicas : List ReplicaState
deriving DecidableEq, Repr

/-- Modelled from the spec: a Table of the CatalogStore (section 3). -/
structure TableInfo where
  name : String
  tableId : String
  numReplicas : Nat
  schema : Schema
deriving DecidableEq, Repr

/-- Modelled from the spec: the CatalogStore with the mutation counters
(`rows_inserted` / `rows_updated`) of its durable backing store.  Per the
CatalogRow invariant (section 3), each Table and each Tablet corresponds to
exactly one durable row: the row is inserted once when the entity is created
and updated — never re-inserted — on subsequent state changes. -/
structure CatalogState where
  tables : List TableInfo
  tablets : List TabletInfo
  rows_inserted : Nat
  rows_updated : Nat
deriving DecidableEq, Repr

/-- The empty catalog of a freshly formatted master. -/
def catalogInit : CatalogState :=
  { tables := [], tablets := [], rows_inserted := 0, rows_updated := 0 }

/-- Look a table up by name. -/
def lookupTable (s : CatalogState) (n : String) : Option TableInfo :=
  s.tables.find? (fun t => t.name == n)

/-- Look a tablet up by id. -/
def lookupTablet (s : CatalogState) (tid : String) : Option TabletInfo :=
  s.tablets.find? (fun t => t.tabletId == tid)

/-- Deterministic id synthesis for the model. -/
def tableIdOf (n : String) : String := "table-" ++ n

/-- Deterministic tablet id for the single tablet of a table. -/
def tabletIdOf (n : String) : String := "tablet-" ++ n

/-- Modelled from the spec: `CreateTable` (section 4.2).  Fails
`AlreadyExists` when the name is taken; otherwise synthesizes the Table and
exactly one Tablet, persists both rows (two durable inserts, no update) and
returns immediately — the replica set starts empty and is filled in by
heartbeat-driven reports. -/
def createTable (s : CatalogState) (n : String) (sch : Schema) (nr : Nat) :
    Except ErrReason (CatalogState × String) :=
  match lookupTable s n with
  | some _ => .error .AlreadyExists
  | none =>
      let tbl : TableInfo :=
        { name := n, tableId := tableIdOf n, numReplicas := nr, schema := sch }
      let tab : TabletInfo :=
        { tabletId := tabletIdOf n, tableId := tableIdOf n, replicas := [] }
      .ok ({ s with
              tables := tbl :: s.tables,
              tablets := tab :: s.tablets,
              rows_inserted := s.rows_inserted + 2 }, tableIdOf n)

/-- A tablet counts as reported once it has at least one reported replica. -/
def tabletReported (t : TabletInfo) : Bool := !t.replicas.isEmpty

/-- Modelled from the spec: `IsCreateTableDone` (section 4.2) — `NotFound`
when the table never existed, otherwise true exactly when every tablet of
the table has at least one reported replica. -/
def isCreateTableDone (s : CatalogState) (n : String) : Except ErrReason Bool :=
  match lookupTable s n with
  | none => .error .NotFound
  | some tbl =>
      .ok ((s.tablets.filter (fun t => t.tableId == tbl.tableId)).all tabletReported)

/-- Modelled from the spec: `GetTabletLocations` (section 4.2). -/
def getTabletLocations (s : CatalogState) (tid : String) :
    Except ErrReason (List ReplicaState) :=
  match lookupTablet s tid with
  | none => .error .NotFound
  | some tab => .ok tab.replicas

/-- The term currently recorded for a (tablet, replica) pair, if any. -/
def recordedTerm (s : CatalogState) (tid u : String) : Option Nat :=
  match lookupTablet s tid with
  | none => none
  | some tab => (tab.replicas.find? (fun r => r.uuid == u)).map (fun r => r.term)

/-- Modelled from the spec: `ApplyTabletReport` (section 4.2 with the
CatalogRow invariant of section 3): an idempotent upsert of one replica's
state into the tablet's replica set.  The tablet's durable row already
exists (inserted by `CreateTable`), so recording a new replica or bumping a
term/role is one durable row update; a report whose term does not exceed the
recorded term for that replica is stale and is ignored without error. -/
def applyTabletReport (s : CatalogState) (tid u : String) (t : Nat) (r : Role) :
    Except ErrReason CatalogState :=
  match s.tablets.find? (fun tab => tab.tabletId == tid) with
  | none => .error .NotFound
  | some tab =>
      match tab.replicas.find? (fun rep => rep.uuid == u) with
      | none =>
          .ok { s with
                tablets := s.tablets.map (fun tb =>
                  if tb.tabletId == tid then
                    { tb with replicas := tb.replicas ++ [⟨u, t, r⟩] }
                  else tb),
                rows_updated := s.rows_updated + 1 }
      | some rep =>
          if t ≤ rep.term then .ok s
          else
            .ok { s with
                  tablets := s.tablets.map (fun tb =>
                    if tb.tabletId == tid then
                      { tb with replicas := tb.replicas.map (fun q =>
                          if q.uuid == u then ⟨u, t, r⟩ else q) }
                    else tb),
                  rows_updated := s.rows_updated + 1 }

/-- Modelled from the spec: a master restart (section 5).  The in-memory
catalog is rebuilt from the durable rows — tables and tablets survive — while
the per-process mutation counters of the catalog tablet start again at 0. -/
def restartCatalog (s : CatalogState) : CatalogState :=
  { s with rows_inserted := 0, rows_updated := 0 }

/-! ## Tablet-server registry (modelled from the spec, section 4.3) -/

/-- The wildcard address that must never be stored in a registration. -/
def wildcardAddr : String := "0.0.0.0"

/-- A registration payload: advertised endpoints and software version. -/
structure Registration where
  endpoints : List String
  softwareVersion : String
deriving DecidableEq, Repr

/-- One tracked ServerDescriptor: permanent UUID, stored registration
payload, liveness timestamp. -/
structure DescEntry where
  uuid : String
  reg : Registration
  lastSeen : Nat
deriving DecidableEq, Repr

/-- Modelled from the spec: rewrite any wildcard endpoint to the caller's
real bind address before storage (section 4.3 invariant). -/
def sanitizeEndpoints (bind : String) (eps : List String) : List String :=
  eps.map (fun a => if a == wildcardAddr then bind else a)

/-- Sanitize the whole payload. -/
def sanitizeReg (bind : String) (r : Registration) : Registration :=
  { r with endpoints := sanitizeEndpoints bind r.endpoints }

/-- Modelled from the spec: `ServerRegistry.Register` (section 4.3) — a new
descriptor when the UUID is unseen, otherwise an in-place refresh of the
existing descriptor's registration payload; the payload is sanitized against
wildcard addresses before storage. -/
def registerTS (regs : List DescEntry) (u : String) (bind : String)
    (r : Registration) (now : Nat) : List DescEntry :=
  if regs.any (fun d => d.uuid == u) then
    regs.map (fun d =>
      if d.uuid == u then { uuid := u, reg := sanitizeReg bind r, lastSeen := now }
      else d)
  else
    regs ++ [{ uuid := u, reg := sanitizeReg bind r, lastSeen := now }]

/-- Modelled from the spec: `ServerRegistry.Touch` (section 4.3) — refresh
the liveness timestamp of a known descriptor. -/
def touchTS (regs : List DescEntry) (u : String) (now : Nat) : List DescEntry :=
  regs.map (fun d => if d.uuid == u then { d with lastSeen := now } else d)

/-- Number of descriptors tracked for a given UUID. -/
def descCount (regs : List DescEntry) (u : String) : Nat :=
  (regs.filter (fun d => d.uuid == u)).length

/-- The stored registration payload for a UUID, if any. -/
def lookupDesc (regs : List DescEntry) (u : String) : Option DescEntry :=
  regs.find? (fun d => d.uuid == u)

/-- The registry invariant of section 4.3: no stored registration ever
contains the wildcard address among its endpoints. -/
def NoWildcard (regs : List DescEntry) : Prop :=
  ∀ d ∈ regs, wildcardAddr ∉ d.reg.endpoints

/-! ## Leader gate (modelled from the spec, section 4.1) -/

/-- Result of a leader-gate acquisition. -/
inductive GateResult
  | ok
  | failed (reason : ErrReason)
deriving DecidableEq, Repr

/-- Modelled from the spec: `LeaderGate.Acquire` (sections 4.1 and 5) —
`NotReady` while catalog metadata has not finished loading (the rebuild
window after a restart), then `ServiceUnavailable` when the consensus oracle
cannot answer, then `NotLeader` when this node does not hold the leader
role. -/
def acquireLeaderGate (loaded : Bool) (role : Role) (oracleUp : Bool) : GateResult :=
  if !loaded then .failed .NotReady
  else if !oracleUp then .failed .ServiceUnavailable
  else if role == .leader then .ok
  else .failed .NotLeader

/-! ## Security bootstrap and heartbeat (modelled from the spec, 4.4-4.5) -/

/-- One public token-signing key as exported to storage nodes. -/
structure TskKey where
  keyId : Nat
  publicMaterial : String
  isActive : Bool
deriving DecidableEq, Repr

/-- The security-relevant state of one storage node. -/
structure NodeSecurityState where
  hasSignedCert : Bool
  tskKeys : List TskKey
deriving DecidableEq, Repr

/-- Modelled from the spec: the node's signing-key view is append-mostly — it
keeps every key it has and adds the exported keys it lacks (section 4.5). -/
def mergeKeys (old fresh : List TskKey) : List TskKey :=
  old ++ fresh.filter (fun k => !(old.any (fun o => o.keyId == k.keyId)))

/-- The full master state the heartbeat processor acts on. -/
structure MasterState where
  loaded : Bool
  role : Role
  oracleUp : Bool
  catalog : CatalogState
  registry : List DescEntry
  tskKeys : List TskKey
  reportedSeqs : List String
deriving DecidableEq, Repr

/-- A heartbeat request: node UUID, optional registration payload, optional
tablet report (tabletId, term, role per entry), certificate-signing flag. -/
structure HeartbeatRequest where
  uuid : String
  greg : Option Registration
  tabletReport : Option (List (String × Nat × Role))
  wantsCert : Bool
deriving DecidableEq, Repr

/-- A heartbeat response: full-report instruction, signing-key export,
whether a certificate was issued in this exchange. -/
structure HeartbeatResponse where
  needsFullReport : Bool
  tskKeys : List TskKey
  certIssued : Bool
deriving DecidableEq, Repr

/-- Apply the entries of one tablet report in order; an entry the catalog
cannot place (unknown tablet) or that is stale is absorbed, never an error
(sections 4.2 and 7). -/
def applyReportEntries (u : String) (c : CatalogState) :
    List (String × Nat × Role) → CatalogState
  | [] => c
  | (tid, t, r) :: rest =>
      match applyTabletReport c tid u t r with
      | .ok c2 => applyReportEntries u c2 rest
      | .error _ => applyReportEntries u c rest

/-- Modelled from the spec: the heartbeat processor (section 4.4).  Acquires
the leader gate — failing the whole call on a gate failure, before any
mutation — then registers or touches the descriptor, merges the tablet
report into the catalog, and answers with the full-report instruction, the
signing-key export and the certificate decision. -/
def processHeartbeat (m : MasterState) (peerAddr : String) (now : Nat)
    (req : HeartbeatRequest) : Except ErrReason (MasterState × HeartbeatResponse) :=
  match acquireLeaderGate m.loaded m.role m.oracleUp with
  | .failed e => .error e
  | .ok =>
      let regs :=
        match req.greg with
        | some r => registerTS m.registry req.uuid peerAddr r now
        | none => touchTS m.registry req.uuid now
      let needFull := !(m.reportedSeqs.contains req.uuid)
      let cat :=
        match req.tabletReport with
        | some entries => applyReportEntries req.uuid m.catalog entries
        | none => m.catalog
      let seqs :=
        match req.tabletReport with
        | some _ =>
            if m.reportedSeqs.contains req.uuid then m.reportedSeqs
            else req.uuid :: m.reportedSeqs
        | none => m.reportedSeqs
      .ok ({ m with registry := regs, catalog := cat, reportedSeqs := seqs },
           { needsFullReport := needFull,
             tskKeys := m.tskKeys,
             certIssued := req.wantsCert })

/-- One full heartbeat cycle as seen from the storage node: it asks for a
certificate exactly when it lacks one, then folds the response into its own
security state (certificate flag, signing-key list). -/
def heartbeatCycle (m : MasterState) (peerAddr : String) (now : Nat)
    (u : String) (r : Option Registration) (rpt : Option (List (String × Nat × Role)))
    (n : NodeSecurityState) : Except ErrReason (MasterState × NodeSecurityState) :=
  match processHeartbeat m peerAddr now
      { uuid := u, greg := r, tabletReport := rpt, wantsCert := !n.hasSignedCert } with
  | .error e => .error e
  | .ok (m2, resp) =>
      .ok (m2, { hasSignedCert := n.hasSignedCert || resp.certIssued,
                 tskKeys := mergeKeys n.tskKeys resp.tskKeys })

/-! ## Client-side polling loops (embedded from registration-test.cc) -/

/-- Embedded from `CreateTableForTesting` (registration-test.cc lines 90 and
110-111): the sleep before poll attempt `n+1`, in microseconds.  The code
starts `wait_time` at 1000 and steps it by
`wait_time = std::min(wait_time * 5 / 4, 1000000)`. -/
def createTablePollDelay : Nat → Nat
  | 0 => 1000
  | n + 1 => min (createTablePollDelay n * 5 / 4) 1000000

/-- Embedded from `CreateTableForTesting` (registration-test.cc lines 92-113):
up to 80 `IsCreateTableDone` attempts; `done i` says whether the response of
attempt `i` reports completion.  Returns the attempt index that succeeded, or
`none` when all 80 attempts saw `done = false` (the caller then fails). -/
def pollIsCreateTableDone (done : Nat → Bool) : Option Nat :=
  (List.range 80).find? (fun i => done i)

/-- Embedded from `RegistrationTest::WaitForReplicaCount`
(registration-test.cc line 197): the sleep between attempts is a constant
1 millisecond (1000 microseconds), for every attempt. -/
def waitForReplicaCountDelay (_ : Nat) : Nat := 1000

/-- Embedded from `RegistrationTest::WaitForReplicaCount`
(registration-test.cc lines 179-198): a `while (true)` loop that returns only
once a `GetTabletLocations` attempt reports the expected replica count;
`counts i` is the replica count observed at attempt `i` (`none` when the
lookup failed or the gate was unavailable).  The fuel argument counts loop
iterations: the code itself has no budget, so exhausting any finite fuel
leaves the loop still running (`none`), never a `Timeout` result. -/
def waitForReplicaCountFuel (counts : Nat → Option Nat) (expected : Nat) :
    Nat → Nat → Option Nat
  | _, 0 => none
  | attempt, fuel + 1 =>
      if counts attempt = some expected then some attempt
      else waitForReplicaCountFuel counts expected (attempt + 1) fuel


/-! ## Concrete states used by scenario theorems and witnesses -/

/-- The schema of the test scenario: one non-nullable UINT32 key column c1. -/
def demoSchema : Schema :=
  { cols := [{ cname := "c1", ctype := .uint32, nullable := false }], numKeyCols := 1 }

/-- Concrete table used by witnesses: the fake-table of the test scenario. -/
def demoTableInfo : TableInfo :=
  { name := "fake-table", tableId := "table-fake-table", numReplicas := 1,
    schema := demoSchema }

/-- Catalog state right after creating fake-table: one table row, one tablet
row, no replica reported yet. -/
def demoCreated : CatalogState :=
  { tables := [demoTableInfo],
    tablets := [{ tabletId := "tablet-fake-table", tableId := "table-fake-table",
                  replicas := [] }],
    rows_inserted := 2, rows_updated := 0 }

/-- Catalog state after the single replica report (term 5) was applied. -/
def demoReportedState : CatalogState :=
  { tables := [demoTableInfo],
    tablets := [{ tabletId := "tablet-fake-table", tableId := "table-fake-table",
                  replicas := [⟨"ts-0", 5, Role.leader⟩] }],
    rows_inserted := 2, rows_updated := 1 }

/-- Example registration payloads for witnesses. -/
def demoRegA : Registration :=
  { endpoints := ["0.0.0.0"], softwareVersion := "kudu 1.0.0" }

/-- A second payload, without a wildcard. -/
def demoRegB : Registration :=
  { endpoints := ["host-1"], softwareVersion := "kudu 1.0.1" }

/-- Master state used by the C10 witness: a loaded leader with one active
signing key and nothing else. -/
def demoMaster : MasterState :=
  { loaded := true, role := Role.leader, oracleUp := true,
    catalog := catalogInit, registry := [],
    tskKeys := [{ keyId := 0, publicMaterial := "pk0", isActive := true }],
    reportedSeqs := [] }

/-! ## Shared lemmas and claim theorems -/

/-- C7: while catalog metadata has not finished loading (the rebuild window
after a master restart), every leader-gate acquisition fails with reason
NotReady — never NotLeader — whatever the role and oracle state. -/
theorem gate_notready_while_loading (role : Role) (oracleUp : Bool) :
    acquireLeaderGate false role oracleUp = .failed .NotReady ∧
      (acquireLeaderGate false role oracleUp = .failed .NotLeader → False) := by
  refine ⟨rfl, ?_⟩
  intro h
  exact ErrReason.noConfusion (GateResult.failed.inj h)

/-- C2: a successful CreateTable on a fresh name inserts exactly two durable
catalog rows — one for the table, one for its single tablet — and performs
zero durable row updates, as seen on the mutation counters. -/
theorem createTable_two_inserts_zero_updates (s : CatalogState) (n : String)
    (sch : Schema) (nr : Nat) (hfresh : lookupTable s n = none) :
    ∃ s2 tid, createTable s n sch nr = .ok (s2, tid) ∧
      s2.rows_inserted = s.rows_inserted + 2 ∧
      s2.rows_updated = s.rows_updated ∧
      s2.tables.length = s.tables.length + 1 ∧
      s2.tablets.length = s.tablets.length + 1 := by
  unfold createTable
  rw [hfresh]
  exact ⟨_, _, rfl, rfl, rfl, rfl, rfl⟩

/-- Witness for C2's theorem at the fake-table scenario input. -/
theorem createTable_two_inserts_zero_updates_witness :
    ∃ s2 tid, createTable catalogInit "fake-table" demoSchema 1 = .ok (s2, tid) ∧
      s2.rows_inserted = catalogInit.rows_inserted + 2 ∧
      s2.rows_updated = catalogInit.rows_updated ∧
      s2.tables.length = catalogInit.tables.length + 1 ∧
      s2.tablets.length = catalogInit.tablets.length + 1 :=
  createTable_two_inserts_zero_updates catalogInit "fake-table" demoSchema 1 rfl

/-- C8 counterexample: already at attempt 1 the replica-count waiter sleeps
1000µs where the exponential-backoff schedule prescribes 1250µs — the waiter
does not follow the claimed backoff schedule. -/
theorem waiter_constant_delay_cex :
    waitForReplicaCountDelay 1 = 1000 ∧ createTablePollDelay 1 = 1250 ∧
      (waitForReplicaCountDelay 1 = createTablePollDelay 1 → False) := by
  refine ⟨rfl, rfl, ?_⟩
  intro h
  simp [waitForReplicaCountDelay, createTablePollDelay] at h

/-- C8 amended: the IsCreateTableDone poll uses the bounded backoff schedule
(1ms seed, never above the 1s cap) with an 80-attempt budget whose exhaustion
is reported to the caller, while the replica-count waiter sleeps a constant
1ms and has no budget: on a trace that never reaches the expected count it is
still looping after any number of iterations and never produces a result. -/
theorem polling_loops_behavior :
    (∀ n, 1000 ≤ createTablePollDelay n ∧ createTablePollDelay n ≤ 1000000) ∧
    (∀ done : Nat → Bool, pollIsCreateTableDone done = none ↔ ∀ i < 80, done i = false) ∧
    (∀ n, waitForReplicaCountDelay n = 1000) ∧
    (∀ fuel a, waitForReplicaCountFuel (fun _ => some 0) 1 a fuel = none) ∧
    (∀ s n, isCreateTableDone s n = .error .Timeout → False) ∧
    (∀ s tid, getTabletLocations s tid = .error .Timeout → False) := by
  refine ⟨?_, ?_, fun _ => rfl, ?_, ?_, ?_⟩
  · intro n
    induction n with
    | zero => exact ⟨le_refl 1000, by norm_num [createTablePollDelay]⟩
    | succ k ih =>
        refine ⟨?_, min_le_right _ _⟩
        have h5 : 5000 ≤ createTablePollDelay k * 5 := by
          calc 5000 = 1000 * 5 := rfl
            _ ≤ createTablePollDelay k * 5 := Nat.mul_le_mul_right 5 ih.1
        have hq : 1250 ≤ createTablePollDelay k * 5 / 4 := by
          calc 1250 = 5000 / 4 := rfl
            _ ≤ createTablePollDelay k * 5 / 4 := Nat.div_le_div_right h5
        have : 1000 ≤ createTablePollDelay k * 5 / 4 := le_trans (by norm_num) hq
        simpa [createTablePollDelay] using le_min this (by norm_num : (1000:Nat) ≤ 1000000)
  · intro done
    unfold pollIsCreateTableDone
    rw [List.find?_eq_none]
    constructor
    · intro h i hi
      have := h i (List.mem_range.mpr hi)
      simpa using this
    · intro h x hx
      have := h x (List.mem_range.mp hx)
      simp [this]
  · intro fuel
    induction fuel with
    | zero => intro a; rfl
    | succ k ih =>
        intro a
        simpa [waitForReplicaCountFuel] using ih (a + 1)
  · intro s n h
    unfold isCreateTableDone at h
    cases hf : lookupTable s n with
    | none => rw [hf] at h; exact ErrReason.noConfusion (Except.error.inj h)
    | some tbl => rw [hf] at h; exact Except.noConfusion h
  · intro s tid h
    unfold getTabletLocations at h
    cases hf : lookupTablet s tid with
    | none => rw [hf] at h; exact ErrReason.noConfusion (Except.error.inj h)
    | some tab => rw [hf] at h; exact Except.noConfusion h

/-- C9: the IsCreateTableDone poll follows the recurrence delay 0 = 1ms,
delay (n+1) = min(delay n * 5/4, 1s) and inspects at most 80 attempts; and in
the scenario that creates "fake-table" with one UINT32 column c1 and
replication factor 1, the table is not done before its tablet is reported,
is done once the single replica report is applied — within the 80-attempt
budget — and GetTabletLocations then returns exactly one replica. -/
theorem fake_table_scenario :
    (createTablePollDelay 0 = 1000 ∧
      ∀ n, createTablePollDelay (n + 1) = min (createTablePollDelay n * 5 / 4) 1000000) ∧
    (∀ done : Nat → Bool, ∀ i, pollIsCreateTableDone done = some i → i < 80 ∧ done i = true) ∧
    (∃ s1, createTable catalogInit "fake-table" demoSchema 1 = .ok (s1, "table-fake-table") ∧
      isCreateTableDone s1 "fake-table" = .ok false ∧
      ∃ s2, applyTabletReport s1 "tablet-fake-table" "ts-0" 1 .leader = .ok s2 ∧
        isCreateTableDone s2 "fake-table" = .ok true ∧
        getTabletLocations s2 "tablet-fake-table" = .ok [⟨"ts-0", 1, .leader⟩] ∧
        (getTabletLocations s2 "tablet-fake-table").map List.length = .ok 1 ∧
        pollIsCreateTableDone (fun i => decide (2 ≤ i)) = some 2) := by
  refine ⟨⟨rfl, fun n => rfl⟩, ?_, ?_⟩
  · intro done i h
    refine ⟨List.mem_range.mp (List.mem_of_find?_eq_some h), List.find?_some h⟩
  · exact ⟨_, rfl, rfl, _, rfl, rfl, rfl, rfl, rfl⟩

/-- A map whose function preserves a predicate commutes with find?. -/
theorem find?_map_pres {α : Type} (p : α → Bool) (f : α → α)
    (hf : ∀ a, p (f a) = p a) (l : List α) :
    (l.map f).find? p = (l.find? p).map f := by
  rw [List.find?_map]
  have hpf : p ∘ f = p := funext hf
  rw [hpf]

/-- A stale report — term at most the recorded one — leaves the store
exactly as it was and still returns ok. -/
theorem applyTabletReport_stale (s : CatalogState) (tid u : String)
    (t0 t : Nat) (r : Role)
    (hrec : recordedTerm s tid u = some t0) (hle : t ≤ t0) :
    applyTabletReport s tid u t r = .ok s := by
  unfold recordedTerm lookupTablet at hrec
  unfold applyTabletReport
  cases hfind : s.tablets.find? (fun tb => tb.tabletId == tid) with
  | none => simp [hfind] at hrec
  | some tab =>
      simp only [hfind] at hrec ⊢
      cases hrep : tab.replicas.find? (fun rep => rep.uuid == u) with
      | none => simp [hrep] at hrec
      | some rep =>
          simp only [hrep, Option.map_some] at hrec ⊢
          have hterm : rep.term = t0 := Option.some.inj hrec
          rw [if_pos (hterm ▸ hle)]

/-- Unfold recordedTerm under a known tablet lookup. -/
theorem recordedTerm_eq (s : CatalogState) (tid u : String) (tab : TabletInfo)
    (hfind : s.tablets.find? (fun tb => tb.tabletId == tid) = some tab) :
    recordedTerm s tid u
      = (tab.replicas.find? (fun rep => rep.uuid == u)).map (fun rep => rep.term) := by
  unfold recordedTerm lookupTablet
  rw [hfind]

/-- After a successfully applied report, the recorded term for that
(tablet, replica) pair is at least the reported term. -/
theorem recordedTerm_after_report (s s1 : CatalogState) (tid u : String)
    (t1 : Nat) (r1 : Role)
    (h1 : applyTabletReport s tid u t1 r1 = .ok s1) :
    ∃ t2, recordedTerm s1 tid u = some t2 ∧ t1 ≤ t2 := by
  unfold applyTabletReport at h1
  cases hfind : s.tablets.find? (fun tb => tb.tabletId == tid) with
  | none => simp [hfind] at h1
  | some tab =>
      have htid : (tab.tabletId == tid) = true := by simpa using List.find?_some hfind
      simp only [hfind] at h1
      cases hrep : tab.replicas.find? (fun rep => rep.uuid == u) with
      | none =>
          simp only [hrep] at h1
          have hs1 := (Except.ok.inj h1).symm
          subst hs1
          refine ⟨t1, ?_, le_refl t1⟩
          have hmfind : (s.tablets.map (fun tb =>
              if tb.tabletId == tid then
                { tb with replicas := tb.replicas ++ [⟨u, t1, r1⟩] }
              else tb)).find? (fun tb => tb.tabletId == tid)
              = some { tab with replicas := tab.replicas ++ [⟨u, t1, r1⟩] } := by
            rw [find?_map_pres (fun tb => tb.tabletId == tid) _
              (fun a => by by_cases h : (a.tabletId == tid) = true <;> simp [h]) s.tablets]
            rw [hfind, Option.map_some']
            rw [if_pos htid]
          rw [recordedTerm_eq _ tid u _ hmfind]
          simp [List.find?_append, hrep, List.find?]
      | some rep =>
          simp only [hrep] at h1
          by_cases hle : t1 ≤ rep.term
          · rw [if_pos hle] at h1
            have hs1 := (Except.ok.inj h1).symm
            subst hs1
            refine ⟨rep.term, ?_, hle⟩
            rw [recordedTerm_eq _ tid u _ hfind, hrep, Option.map_some']
          · rw [if_neg hle] at h1
            have hs1 := (Except.ok.inj h1).symm
            subst hs1
            refine ⟨t1, ?_, le_refl t1⟩
            have hu : (rep.uuid == u) = true := by simpa using List.find?_some hrep
            have hmfind : (s.tablets.map (fun tb =>
                if tb.tabletId == tid then
                  { tb with replicas := tb.replicas.map (fun q =>
                      if q.uuid == u then ⟨u, t1, r1⟩ else q) }
                else tb)).find? (fun tb => tb.tabletId == tid)
                = some { tab with replicas := tab.replicas.map (fun q =>
                    if q.uuid == u then ⟨u, t1, r1⟩ else q) } := by
              rw [find?_map_pres (fun tb => tb.tabletId == tid) _
                (fun a => by by_cases h : (a.tabletId == tid) = true <;> simp [h]) s.tablets]
              rw [hfind, Option.map_some']
              rw [if_pos htid]
            rw [recordedTerm_eq _ tid u _ hmfind]
            have hrfind : (tab.replicas.map (fun q =>
                if q.uuid == u then (⟨u, t1, r1⟩ : ReplicaState) else q)).find?
                  (fun rep => rep.uuid == u)
                = some (⟨u, t1, r1⟩ : ReplicaState) := by
              rw [find?_map_pres (fun rep => rep.uuid == u) _
                (fun q => by by_cases h : (q.uuid == u) = true <;> simp [h]) tab.replicas]
              rw [hrep, Option.map_some']
              simp [hu]
            rw [hrfind, Option.map_some']

/-- C4: a second report for the same (tablet, replica) whose term t2 does not
exceed the already-applied term t1 leaves the store state exactly as it was
(no insert, no update), returns ok rather than an error, and the enclosing
heartbeat that carries it still succeeds with the catalog unchanged. -/
theorem stale_second_report_noop (s s1 : CatalogState) (tid u : String)
    (t1 t2 : Nat) (r1 r2 : Role)
    (h1 : applyTabletReport s tid u t1 r1 = .ok s1) (hle : t2 ≤ t1) :
    applyTabletReport s1 tid u t2 r2 = .ok s1 ∧
    (∀ (m : MasterState) (peerAddr : String) (now : Nat),
      m.catalog = s1 → m.loaded = true → m.oracleUp = true → m.role = Role.leader →
      ∃ m2 resp, processHeartbeat m peerAddr now
          { uuid := u, greg := none, tabletReport := some [(tid, t2, r2)],
            wantsCert := false } = .ok (m2, resp) ∧ m2.catalog = s1) := by
  obtain ⟨t3, hrec, ht⟩ := recordedTerm_after_report s s1 tid u t1 r1 h1
  have habs : applyTabletReport s1 tid u t2 r2 = .ok s1 :=
    applyTabletReport_stale s1 tid u t3 t2 r2 hrec (le_trans hle ht)
  refine ⟨habs, ?_⟩
  intro m peerAddr now hcat hl ho hr
  have hgate : acquireLeaderGate m.loaded m.role m.oracleUp = GateResult.ok := by
    rw [hl, ho, hr]
    rfl
  unfold processHeartbeat
  rw [hgate]
  refine ⟨_, _, rfl, ?_⟩
  show applyReportEntries u m.catalog [(tid, t2, r2)] = s1
  rw [hcat]
  unfold applyReportEntries
  rw [habs]
  rfl

/-- Witness for C4's theorem: a term-5 report followed by a second term-5
report on the same (tablet, replica) of the fake-table state. -/
theorem stale_second_report_noop_witness :
    applyTabletReport demoReportedState "tablet-fake-table" "ts-0" 5 Role.follower
        = .ok demoReportedState ∧
    (∀ (m : MasterState) (peerAddr : String) (now : Nat),
      m.catalog = demoReportedState → m.loaded = true → m.oracleUp = true →
      m.role = Role.leader →
      ∃ m2 resp, processHeartbeat m peerAddr now
          { uuid := "ts-0", greg := none,
            tabletReport := some [("tablet-fake-table", 5, Role.follower)],
            wantsCert := false } = .ok (m2, resp) ∧ m2.catalog = demoReportedState) :=
  stale_second_report_noop demoCreated demoReportedState "tablet-fake-table" "ts-0"
    5 5 Role.leader Role.follower (by rfl) (le_refl 5)

/-- C1: for a table that exists, IsCreateTableDone answers true exactly when
every tablet of the table has at least one reported replica, and answers
false — never true early — while some tablet of the table still has no
reported replica. -/
theorem isCreateTableDone_characterization (s : CatalogState) (n : String)
    (tbl : TableInfo) (h : lookupTable s n = some tbl) :
    (isCreateTableDone s n = .ok true ↔
      ∀ t ∈ s.tablets, t.tableId = tbl.tableId → t.replicas ≠ []) ∧
    ((∃ t, t ∈ s.tablets ∧ t.tableId = tbl.tableId ∧ t.replicas = []) →
      isCreateTableDone s n = .ok false) := by
  have hdone : isCreateTableDone s n
      = .ok ((s.tablets.filter (fun t => t.tableId == tbl.tableId)).all tabletReported) := by
    unfold isCreateTableDone
    rw [h]
  rw [hdone]
  constructor
  · constructor
    · intro hok t ht htid hnil
      have hall := Except.ok.inj hok
      rw [List.all_eq_true] at hall
      have hmem : t ∈ s.tablets.filter (fun tb => tb.tableId == tbl.tableId) :=
        List.mem_filter.mpr ⟨ht, by simp [htid]⟩
      have hrep := hall t hmem
      unfold tabletReported at hrep
      rw [hnil] at hrep
      simp at hrep
    · intro hall
      have hb : (s.tablets.filter (fun tb => tb.tableId == tbl.tableId)).all
          tabletReported = true := by
        rw [List.all_eq_true]
        intro t ht
        obtain ⟨htmem, htid⟩ := List.mem_filter.mp ht
        have hne := hall t htmem (by simpa using htid)
        unfold tabletReported
        cases he : t.replicas.isEmpty with
        | false => rfl
        | true => exact absurd (List.isEmpty_iff.mp he) hne
      rw [hb]
  · rintro ⟨t, ht, htid, hnil⟩
    have hb : (s.tablets.filter (fun tb => tb.tableId == tbl.tableId)).all
        tabletReported = false := by
      rw [Bool.eq_false_iff]
      intro hall
      rw [List.all_eq_true] at hall
      have hmem : t ∈ s.tablets.filter (fun tb => tb.tableId == tbl.tableId) :=
        List.mem_filter.mpr ⟨ht, by simp [htid]⟩
      have hrep := hall t hmem
      unfold tabletReported at hrep
      rw [hnil] at hrep
      simp at hrep
    rw [hb]

/-- Witness for C1's theorem at the just-created fake-table state, where the
single tablet has no replica yet. -/
theorem isCreateTableDone_characterization_witness :
    (isCreateTableDone demoCreated "fake-table" = .ok true ↔
      ∀ t ∈ demoCreated.tablets, t.tableId = demoTableInfo.tableId → t.replicas ≠ []) ∧
    ((∃ t, t ∈ demoCreated.tablets ∧ t.tableId = demoTableInfo.tableId ∧ t.replicas = []) →
      isCreateTableDone demoCreated "fake-table" = .ok false) :=
  isCreateTableDone_characterization demoCreated "fake-table" demoTableInfo (by rfl)

/-- C3: a master restart preserves the durable table and tablet rows while
the mutation counters start at zero; after it, a re-report for an existing
replica whose term increased performs no insert and exactly one row update,
and a re-report whose term did not increase leaves the store untouched. -/
theorem restart_rereport_counters (s : CatalogState) (tid u : String)
    (t0 t : Nat) (r : Role) (hrec : recordedTerm s tid u = some t0) :
    ((restartCatalog s).tables = s.tables ∧ (restartCatalog s).tablets = s.tablets ∧
      (restartCatalog s).rows_inserted = 0 ∧ (restartCatalog s).rows_updated = 0) ∧
    (t0 < t → ∃ s2, applyTabletReport s tid u t r = .ok s2 ∧
      s2.rows_inserted = s.rows_inserted ∧ s2.rows_updated = s.rows_updated + 1 ∧
      s2.tables = s.tables ∧ s2.tablets.length = s.tablets.length) ∧
    (t ≤ t0 → applyTabletReport s tid u t r = .ok s) := by
  refine ⟨⟨rfl, rfl, rfl, rfl⟩, ?_, fun hle => applyTabletReport_stale s tid u t0 t r hrec hle⟩
  intro hlt
  unfold recordedTerm lookupTablet at hrec
  unfold applyTabletReport
  cases hfind : s.tablets.find? (fun tb => tb.tabletId == tid) with
  | none => simp [hfind] at hrec
  | some tab =>
      simp only [hfind] at hrec ⊢
      cases hrep : tab.replicas.find? (fun rep => rep.uuid == u) with
      | none => simp [hrep] at hrec
      | some rep =>
          simp only [hrep, Option.map_some'] at hrec ⊢
          have hterm : rep.term = t0 := Option.some.inj hrec
          rw [if_neg (by rw [hterm]; exact Nat.not_le.mpr hlt)]
          exact ⟨_, rfl, rfl, rfl, rfl, (List.length_map s.tablets _)⟩

/-- Witness for C3's theorem: the reported fake-table state after a restart,
with a term-6 re-report (term increased from 5) and a term-5 one (stale). -/
theorem restart_rereport_counters_witness :
    ((restartCatalog demoReportedState).tables = demoReportedState.tables ∧
      (restartCatalog demoReportedState).tablets = demoReportedState.tablets ∧
      (restartCatalog demoReportedState).rows_inserted = 0 ∧
      (restartCatalog demoReportedState).rows_updated = 0) ∧
    (5 < 6 → ∃ s2, applyTabletReport demoReportedState "tablet-fake-table" "ts-0" 6
        Role.leader = .ok s2 ∧
      s2.rows_inserted = demoReportedState.rows_inserted ∧
      s2.rows_updated = demoReportedState.rows_updated + 1 ∧
      s2.tables = demoReportedState.tables ∧
      s2.tablets.length = demoReportedState.tablets.length) ∧
    (6 ≤ 5 → applyTabletReport demoReportedState "tablet-fake-table" "ts-0" 6
        Role.leader = .ok demoReportedState) :=
  restart_rereport_counters demoReportedState "tablet-fake-table" "ts-0" 5 6
    Role.leader (by rfl)

/-- The in-place refresh of registerTS preserves the uuid key test. -/
theorem registerKeyPres (u bind : String) (r : Registration) (now : Nat) :
    ∀ d : DescEntry,
      ((if d.uuid == u then
          ({ uuid := u, reg := sanitizeReg bind r, lastSeen := now } : DescEntry)
        else d).uuid == u) = (d.uuid == u) := by
  intro d
  by_cases h : (d.uuid == u) = true <;> simp [h]

/-- One register call leaves exactly one descriptor for the UUID, provided
the registry tracked at most one before. -/
theorem descCount_registerTS (regs : List DescEntry) (u bind : String)
    (r : Registration) (now : Nat) (hwf : descCount regs u ≤ 1) :
    descCount (registerTS regs u bind r now) u = 1 := by
  unfold descCount at hwf ⊢
  unfold registerTS
  by_cases hany : regs.any (fun d => d.uuid == u) = true
  · rw [if_pos hany]
    have hpf : (fun d : DescEntry => d.uuid == u) ∘ (fun d : DescEntry =>
        if d.uuid == u then
          ({ uuid := u, reg := sanitizeReg bind r, lastSeen := now } : DescEntry)
        else d) = fun d : DescEntry => d.uuid == u := funext (registerKeyPres u bind r now)
    rw [List.filter_map, hpf, List.length_map]
    obtain ⟨x, hx, hpx⟩ := List.any_eq_true.mp hany
    have hone : 1 ≤ (regs.filter (fun d => d.uuid == u)).length := by
      have hm : x ∈ regs.filter (fun d => d.uuid == u) := List.mem_filter.mpr ⟨hx, hpx⟩
      exact List.length_pos.mpr (List.ne_nil_of_mem hm)
    exact le_antisymm hwf hone
  · rw [if_neg hany, List.filter_append]
    have hnil : regs.filter (fun d => d.uuid == u) = [] := by
      rw [List.filter_eq_nil_iff]
      intro a ha hpa
      exact hany (List.any_eq_true.mpr ⟨a, ha, hpa⟩)
    rw [hnil]
    simp

/-- After a register call the stored descriptor for the UUID is exactly the
freshly sanitized payload — an in-place refresh, never a duplicate. -/
theorem lookupDesc_registerTS (regs : List DescEntry) (u bind : String)
    (r : Registration) (now : Nat) :
    lookupDesc (registerTS regs u bind r now) u
      = some { uuid := u, reg := sanitizeReg bind r, lastSeen := now } := by
  unfold registerTS lookupDesc
  by_cases hany : regs.any (fun d => d.uuid == u) = true
  · rw [if_pos hany]
    rw [find?_map_pres (fun d => d.uuid == u) _ (registerKeyPres u bind r now) regs]
    cases hf : regs.find? (fun d => d.uuid == u) with
    | none =>
        rw [List.find?_eq_none] at hf
        obtain ⟨x, hx, hpx⟩ := List.any_eq_true.mp hany
        exact absurd hpx (by simpa using hf x hx)
    | some d =>
        have hpd : (d.uuid == u) = true := by simpa using List.find?_some hf
        rw [Option.map_some', if_pos hpd]
  · rw [if_neg hany, List.find?_append]
    have hnone : regs.find? (fun d => d.uuid == u) = none := by
      rw [List.find?_eq_none]
      intro x hx hpx
      exact hany (List.any_eq_true.mpr ⟨x, hx, hpx⟩)
    rw [hnone]
    simp [List.find?]

/-- Registering an already-present UUID does not grow the registry. -/
theorem length_registerTS_existing (regs : List DescEntry) (u bind : String)
    (r : Registration) (now : Nat) (hany : regs.any (fun d => d.uuid == u) = true) :
    (registerTS regs u bind r now).length = regs.length := by
  unfold registerTS
  rw [if_pos hany]
  exact List.length_map regs _

/-- A positive descriptor count means the any-test holds. -/
theorem any_of_descCount_pos (regs : List DescEntry) (u : String)
    (h : 0 < descCount regs u) : regs.any (fun d => d.uuid == u) = true := by
  unfold descCount at h
  rw [List.length_pos] at h
  obtain ⟨x, hx⟩ := List.exists_mem_of_ne_nil _ h
  obtain ⟨hmem, hp⟩ := List.mem_filter.mp hx
  exact List.any_eq_true.mpr ⟨x, hmem, hp⟩

/-- C5: Register is idempotent in descriptor identity — two calls for the
same UUID leave exactly one tracked descriptor holding the second call's
payload, refreshed in place (the registry does not grow), and a register
into a registry wiped by a master restart also yields exactly one. -/
theorem register_idempotent (regs : List DescEntry) (u bind1 bind2 : String)
    (r1 r2 : Registration) (n1 n2 : Nat) (hwf : descCount regs u ≤ 1) :
    descCount (registerTS (registerTS regs u bind1 r1 n1) u bind2 r2 n2) u = 1 ∧
    lookupDesc (registerTS (registerTS regs u bind1 r1 n1) u bind2 r2 n2) u
      = some { uuid := u, reg := sanitizeReg bind2 r2, lastSeen := n2 } ∧
    (registerTS (registerTS regs u bind1 r1 n1) u bind2 r2 n2).length
      = (registerTS regs u bind1 r1 n1).length ∧
    descCount (registerTS [] u bind2 r2 n2) u = 1 := by
  have h1 : descCount (registerTS regs u bind1 r1 n1) u = 1 :=
    descCount_registerTS regs u bind1 r1 n1 hwf
  refine ⟨descCount_registerTS _ u bind2 r2 n2 (by rw [h1]),
          lookupDesc_registerTS _ u bind2 r2 n2,
          length_registerTS_existing _ u bind2 r2 n2
            (any_of_descCount_pos _ u (by rw [h1]; exact Nat.one_pos)),
          descCount_registerTS [] u bind2 r2 n2 (by simp [descCount])⟩

/-- Witness for C5's theorem: the same UUID registered twice into an empty
registry (as after a master restart). -/
theorem register_idempotent_witness :
    descCount (registerTS (registerTS [] "ts-0" "192.168.0.2" demoRegA 1)
        "ts-0" "192.168.0.2" demoRegB 2) "ts-0" = 1 ∧
    lookupDesc (registerTS (registerTS [] "ts-0" "192.168.0.2" demoRegA 1)
        "ts-0" "192.168.0.2" demoRegB 2) "ts-0"
      = some { uuid := "ts-0", reg := sanitizeReg "192.168.0.2" demoRegB, lastSeen := 2 } ∧
    (registerTS (registerTS [] "ts-0" "192.168.0.2" demoRegA 1)
        "ts-0" "192.168.0.2" demoRegB 2).length
      = (registerTS [] "ts-0" "192.168.0.2" demoRegA 1).length ∧
    descCount (registerTS [] "ts-0" "192.168.0.2" demoRegB 2) "ts-0" = 1 :=
  register_idempotent [] "ts-0" "192.168.0.2" "192.168.0.2" demoRegA demoRegB 1 2
    (by simp [descCount])

/-- No sanitized endpoint list contains the wildcard, given a real bind
address. -/
theorem sanitize_no_wildcard (bind : String) (hbind : bind ≠ wildcardAddr) :
    ∀ eps : List String, wildcardAddr ∉ sanitizeEndpoints bind eps := by
  intro eps hmem
  unfold sanitizeEndpoints at hmem
  obtain ⟨a, ha, hfa⟩ := List.mem_map.mp hmem
  by_cases h : (a == wildcardAddr) = true
  · rw [if_pos h] at hfa
    exact hbind hfa
  · rw [if_neg h] at hfa
    exact h (by simp [hfa])

/-- C6: registrations are sanitized before storage, so the stored registry
never holds a wildcard address — neither in any stored descriptor after a
register call on a clean registry, nor in a later-read registration. -/
theorem no_wildcard_stored (regs : List DescEntry) (u bind : String)
    (r : Registration) (now : Nat)
    (hbind : bind ≠ wildcardAddr) (hregs : NoWildcard regs) :
    NoWildcard (registerTS regs u bind r now) ∧
    (∀ d, lookupDesc (registerTS regs u bind r now) u = some d →
      wildcardAddr ∉ d.reg.endpoints) := by
  have hno : NoWildcard (registerTS regs u bind r now) := by
    intro d hd
    unfold registerTS at hd
    by_cases hany : regs.any (fun d0 => d0.uuid == u) = true
    · rw [if_pos hany] at hd
      obtain ⟨d0, hd0, hfd⟩ := List.mem_map.mp hd
      by_cases h : (d0.uuid == u) = true
      · rw [if_pos h] at hfd
        rw [← hfd]
        exact sanitize_no_wildcard bind hbind r.endpoints
      · rw [if_neg h] at hfd
        rw [← hfd]
        exact hregs d0 hd0
    · rw [if_neg hany] at hd
      rcases List.mem_append.mp hd with hmem | hmem
      · exact hregs d hmem
      · rw [List.mem_singleton.mp hmem]
        exact sanitize_no_wildcard bind hbind r.endpoints
  exact ⟨hno, fun d hd => hno d (List.mem_of_find?_eq_some hd)⟩

/-- Witness for C6's theorem: a registration advertising the wildcard,
stored into an empty registry with real bind address 192.168.0.2. -/
theorem no_wildcard_stored_witness :
    NoWildcard (registerTS [] "ts-0" "192.168.0.2" demoRegA 1) ∧
    (∀ d, lookupDesc (registerTS [] "ts-0" "192.168.0.2" demoRegA 1) "ts-0" = some d →
      wildcardAddr ∉ d.reg.endpoints) :=
  no_wildcard_stored [] "ts-0" "192.168.0.2" demoRegA 1
    (by decide) (by intro d hd; cases hd)

/-- Merging a non-empty exported key set into any local view leaves a
non-empty view. -/
theorem mergeKeys_ne_nil (a b : List TskKey) (hb : b ≠ []) : mergeKeys a b ≠ [] := by
  intro h
  unfold mergeKeys at h
  obtain ⟨ha, hf⟩ := List.append_eq_nil.mp h
  subst ha
  rw [List.filter_eq_nil_iff] at hf
  cases b with
  | nil => exact hb rfl
  | cons k ks => exact hf k (List.mem_cons_self k ks) (by simp)

/-- C10: a storage node without a signed certificate asks for one in its
heartbeat; after one heartbeat cycle against a leader master whose signing
keys are non-empty, the node holds a signed certificate and its signing-key
list is non-empty. -/
theorem heartbeat_security_bootstrap (m : MasterState) (peerAddr : String)
    (now : Nat) (u : String) (r : Option Registration)
    (rpt : Option (List (String × Nat × Role))) (n : NodeSecurityState)
    (hl : m.loaded = true) (ho : m.oracleUp = true) (hr : m.role = Role.leader)
    (hk : m.tskKeys ≠ []) (hc : n.hasSignedCert = false) :
    ∃ m2 n2, heartbeatCycle m peerAddr now u r rpt n = .ok (m2, n2) ∧
      n2.hasSignedCert = true ∧ n2.tskKeys ≠ [] := by
  have hgate : acquireLeaderGate m.loaded m.role m.oracleUp = GateResult.ok := by
    rw [hl, ho, hr]
    rfl
  unfold heartbeatCycle processHeartbeat
  rw [hgate]
  refine ⟨_, _, rfl, ?_, ?_⟩
  · simp [hc]
  · show mergeKeys n.tskKeys m.tskKeys ≠ []
    exact mergeKeys_ne_nil n.tskKeys m.tskKeys hk

/-- Witness for C10's theorem: a certificate-less node heartbeating the demo
master. -/
theorem heartbeat_security_bootstrap_witness :
    ∃ m2 n2, heartbeatCycle demoMaster "192.168.0.2" 1 "ts-0" (some demoRegB) none
        { hasSignedCert := false, tskKeys := [] } = .ok (m2, n2) ∧
      n2.hasSignedCert = true ∧ n2.tskKeys ≠ [] :=
  heartbeat_security_bootstrap demoMaster "192.168.0.2" 1 "ts-0" (some demoRegB) none
    { hasSignedCert := false, tskKeys := [] } rfl rfl rfl (by decide) rfl

end KuduReg
